import Mathlib

/-!
Verification of the AugmentOS TPA session runtime (Cloudflare Workers example app).

The development shallowly embeds the session protocol engine of the repository:
`TpaSession` (tpaSession.ts: `sanitizeEventData`, `send`, `handleReconnection`,
`subscribe`, `getSettings`, the `CONNECTION_ACK` and `SETTINGS_UPDATE` branches of
`handleMessage`) and `EventManager` (events.ts: `emit`, `addHandler`,
`onSettingChange`).  JavaScript values arriving on the wire are modelled by a
JSON-like inductive type; JS `Map`/`Set` state is modelled by total functions and
duplicate-free lists; the mutable per-session fields are threaded explicitly as a
state record, with observable effects (event emissions, outbound sends) collected
as action traces.
-/

namespace Tpa

/-- A JSON-like JavaScript runtime value as seen by the session runtime.
`date` stands for a JS `Date` object (its numeric clock value attached),
which the runtime produces via `new Date()` / `Date.now()`. -/
inductive Json where
  | null
  | bool (b : Bool)
  | num (n : Int)
  | str (s : String)
  | date (t : Int)
  | arr (elems : List Json)
  | obj (fields : List (String × Json))

/-- First-match lookup among the fields of an object literal. -/
def fieldLookup : List (String × Json) → String → Option Json
  | [], _ => none
  | (k2, v) :: rest, k => if k2 = k then some v else fieldLookup rest k

/-- JS property read `j[k]`: defined for object values, `undefined` (here `none`)
for every non-object, matching JS property access on primitives and arrays for
the string keys the runtime reads. -/
def Json.get : Json → String → Option Json
  | .obj fs, k => fieldLookup fs k
  | _, _ => none

/-- JS truthiness of a value. -/
def Json.truthy : Json → Bool
  | .null => false
  | .bool b => b
  | .num n => decide (n ≠ 0)
  | .str s => decide (s ≠ "")
  | .date _ => true
  | .arr _ => true
  | .obj _ => true

/-- JS `typeof j === "object"` (true for objects, arrays, Date objects and null). -/
def Json.isObjectTypeof : Json → Bool
  | .null => true
  | .obj _ => true
  | .arr _ => true
  | .date _ => true
  | _ => false

/-- JS `k in j` for the object-like values that reach the check. -/
def Json.hasKey : Json → String → Bool
  | .obj fs, k => (fieldLookup fs k).isSome
  | _, _ => false

/-- Truthiness of a possibly-absent property (absent reads as `undefined`, falsy). -/
def truthyProp (j : Json) (k : String) : Bool :=
  match j.get k with
  | some v => v.truthy
  | none => false

/-- JS `j === null`. -/
def Json.isNull : Json → Bool
  | .null => true
  | _ => false

/-- The stream-type tags of the `StreamType` enumeration used by the runtime. -/
inductive StreamType where
  | transcription
  | translation
  | headPosition
  | buttonPress
  | phoneNotification
  | audioChunk
  | video
  | vad
  | locationUpdate
  | calendarEvent
  | glassesBatteryUpdate
  | phoneBatteryUpdate
  | glassesConnectionState
  | notificationDismissed
  | openDashboard
  | startApp
  | stopApp
  | all
  | wildcard
deriving DecidableEq

/-- Embeds `TpaSession.sanitizeEventData(streamType, data)`.  `data` is the raw
`message.data` property: `none` stands for JS `undefined`, `some Json.null` for
JS `null`; both are collapsed to the empty object by the leading guard.  `now`
stands for the clock read by `Date.now()` / `new Date()` in the replacement
records.  Property reads on primitives yield `undefined` and hence fail the
string/truthiness tests, exactly as in JS. -/
def sanitizeEventData (streamType : StreamType) (data : Option Json) (now : Int) : Json :=
  match data with
  | none => Json.obj []
  | some d =>
    if d.isNull then Json.obj [] else
    match streamType with
    | .transcription =>
      match d.get "text" with
      | some (Json.str _) => d
      | _ => Json.obj [("text", Json.str ""), ("isFinal", Json.bool true),
                       ("startTime", Json.num now), ("endTime", Json.num now)]
    | .headPosition =>
      match d.get "position" with
      | some (Json.str _) => d
      | _ => Json.obj [("position", Json.str "up"), ("timestamp", Json.date now)]
    | .buttonPress =>
      if truthyProp d "buttonId" && truthyProp d "pressType" then d
      else Json.obj [("buttonId", Json.str "unknown"), ("pressType", Json.str "short"),
                     ("timestamp", Json.date now)]
    | _ => d

/-- The sanitized value carries a string under key `k`. -/
def hasStringField (j : Json) (k : String) : Prop :=
  ∃ s, j.get k = some (Json.str s)

/-- The sanitized value carries some value under key `k`. -/
def hasField (j : Json) (k : String) : Prop :=
  ∃ v, j.get k = some v

/-- C1 counterexample: sanitizing a `null` transcription payload returns the empty
object, which has no `text` field at all, so the output does not satisfy the
transcription minimum-shape contract for the input payload `null`. -/
theorem sanitizeEventData_null_breaks_shape :
    ¬ hasStringField (sanitizeEventData StreamType.transcription (some Json.null) 0) "text" := by
  rintro ⟨s, h⟩
  simp [sanitizeEventData, Json.isNull, Json.get, fieldLookup] at h

/-- C1 (amended): for every known stream type with a declared minimum shape and
every non-null, defined input payload, the sanitization output satisfies that
the minimum-shape contract of that type: a sanitized transcription payload has a string
`text` field, a sanitized head-position payload has a string `position` field
(defaulting to "up" when the input lacks a string `position`), and a sanitized
button-press payload has `buttonId` and `pressType` fields (defaulting to
"unknown"/"short" when either is missing or falsy); a null or undefined payload
(like any exception inside sanitization) yields the empty object instead. -/
theorem sanitizeEventData_shape (d : Json) (now : Int) (hd : d ≠ Json.null) :
    hasStringField (sanitizeEventData StreamType.transcription (some d) now) "text"
    ∧ hasStringField (sanitizeEventData StreamType.headPosition (some d) now) "position"
    ∧ ((∀ s, d.get "position" ≠ some (Json.str s)) →
        (sanitizeEventData StreamType.headPosition (some d) now).get "position"
          = some (Json.str "up"))
    ∧ hasField (sanitizeEventData StreamType.buttonPress (some d) now) "buttonId"
    ∧ hasField (sanitizeEventData StreamType.buttonPress (some d) now) "pressType"
    ∧ ((truthyProp d "buttonId" && truthyProp d "pressType") = false →
        (sanitizeEventData StreamType.buttonPress (some d) now).get "buttonId"
            = some (Json.str "unknown")
        ∧ (sanitizeEventData StreamType.buttonPress (some d) now).get "pressType"
            = some (Json.str "short"))
    ∧ (∀ st : StreamType, sanitizeEventData st none now = Json.obj []
        ∧ sanitizeEventData st (some Json.null) now = Json.obj []) := by
  have hiso : d.isNull = false := by
    cases d <;> simp_all [Json.isNull]
  have hnull : ∀ st : StreamType, sanitizeEventData st none now = Json.obj []
      ∧ sanitizeEventData st (some Json.null) now = Json.obj [] := by
    intro st
    exact ⟨rfl, by simp [sanitizeEventData, Json.isNull]⟩
  have htr : ∀ hget : d.get "text" = none ∨ (∃ v, d.get "text" = some v ∧ ∀ s, v ≠ Json.str s),
      sanitizeEventData StreamType.transcription (some d) now
        = Json.obj [("text", Json.str ""), ("isFinal", Json.bool true),
                    ("startTime", Json.num now), ("endTime", Json.num now)] := by
    rintro (hget | ⟨v, hget, hv⟩)
    · simp [sanitizeEventData, hiso, hget]
    · cases v
      case str s => exact absurd rfl (hv s)
      all_goals simp [sanitizeEventData, hiso, hget]
  have hhp : ∀ hget : d.get "position" = none
        ∨ (∃ v, d.get "position" = some v ∧ ∀ s, v ≠ Json.str s),
      sanitizeEventData StreamType.headPosition (some d) now
        = Json.obj [("position", Json.str "up"), ("timestamp", Json.date now)] := by
    rintro (hget | ⟨v, hget, hv⟩)
    · simp [sanitizeEventData, hiso, hget]
    · cases v
      case str s => exact absurd rfl (hv s)
      all_goals simp [sanitizeEventData, hiso, hget]
  have hbp : (truthyProp d "buttonId" && truthyProp d "pressType") = false →
      sanitizeEventData StreamType.buttonPress (some d) now
        = Json.obj [("buttonId", Json.str "unknown"), ("pressType", Json.str "short"),
                    ("timestamp", Json.date now)] := by
    intro hb
    simp [sanitizeEventData, hiso, hb]
  refine ⟨?_, ?_, ?_, ?_, ?_, ?_, hnull⟩
  · rcases htext : d.get "text" with _ | v
    · exact ⟨"", by rw [htr (Or.inl htext)]; simp [Json.get, fieldLookup]⟩
    · cases v with
      | str s => exact ⟨s, by simp [sanitizeEventData, hiso, htext]⟩
      | _ =>
        refine ⟨"", ?_⟩
        rw [htr (Or.inr ⟨_, htext, by intro s h; cases h⟩)]
        simp [Json.get, fieldLookup]
  · rcases hpos : d.get "position" with _ | v
    · exact ⟨"up", by rw [hhp (Or.inl hpos)]; simp [Json.get, fieldLookup]⟩
    · cases v with
      | str s => exact ⟨s, by simp [sanitizeEventData, hiso, hpos]⟩
      | _ =>
        refine ⟨"up", ?_⟩
        rw [hhp (Or.inr ⟨_, hpos, by intro s h; cases h⟩)]
        simp [Json.get, fieldLookup]
  · intro hnostr
    rcases hpos : d.get "position" with _ | v
    · rw [hhp (Or.inl hpos)]; simp [Json.get, fieldLookup]
    · cases v with
      | str s => exact absurd hpos (hnostr s)
      | _ =>
        rw [hhp (Or.inr ⟨_, hpos, by intro s h; cases h⟩)]
        simp [Json.get, fieldLookup]
  · cases hb : truthyProp d "buttonId" && truthyProp d "pressType" with
    | false =>
      exact ⟨Json.str "unknown", by rw [hbp hb]; simp [Json.get, fieldLookup]⟩
    | true =>
      rcases Bool.and_eq_true_iff.mp hb with ⟨h1, h2⟩
      unfold truthyProp at h1
      rcases hget : d.get "buttonId" with _ | v
      · rw [hget] at h1; exact absurd h1 (by simp)
      · exact ⟨v, by simp [sanitizeEventData, hiso, hb, hget]⟩
  · cases hb : truthyProp d "buttonId" && truthyProp d "pressType" with
    | false =>
      exact ⟨Json.str "short", by rw [hbp hb]; simp [Json.get, fieldLookup]⟩
    | true =>
      rcases Bool.and_eq_true_iff.mp hb with ⟨h1, h2⟩
      unfold truthyProp at h2
      rcases hget : d.get "pressType" with _ | v
      · rw [hget] at h2; exact absurd h2 (by simp)
      · exact ⟨v, by simp [sanitizeEventData, hiso, hb, hget]⟩
  · intro hb
    rw [hbp hb]
    constructor <;> simp [Json.get, fieldLookup]

/-- C1 witness: the amended sanitization theorem applied at the concrete payload
`{isFinal: false}` (no `text`, no `position`, no button fields). -/
theorem sanitizeEventData_shape_witness :
    hasStringField
      (sanitizeEventData StreamType.transcription (some (Json.obj [("isFinal", Json.bool false)])) 7)
      "text"
    ∧ (sanitizeEventData StreamType.headPosition (some (Json.obj [("isFinal", Json.bool false)])) 7).get
        "position" = some (Json.str "up") := by
  have h := sanitizeEventData_shape (Json.obj [("isFinal", Json.bool false)]) 7 (by intro h; cases h)
  refine ⟨h.1, h.2.2.1 ?_⟩
  intro s
  simp [Json.get, fieldLookup]

/-- Outcome of invoking one application callback: it either returns normally or
throws an error carrying a message. -/
inductive HandlerOutcome where
  | ok
  | threw (msg : String)

/-- The observable trace of one `EventManager.emit` call over the handler set of
the emitted tag: how many handlers were invoked, and which `error` events were
emitted by the per-handler catch blocks. -/
structure EmitTrace where
  invoked : Nat
  errorEvents : List String

/-- The error-event text built in the per-handler catch of `EventManager.emit`
(`\x27` is the ASCII apostrophe used around the event tag). -/
def handlerErrorMessage (event msg : String) : String :=
  "Handler error for event \x27" ++ event ++ "\x27: " ++ msg

/-- Embeds `EventManager.emit(event, data)` over the snapshot `Array.from(handlers)`
of the handlers registered for `event`: each handler runs in its own try/catch; a
throwing handler is logged and re-raised as an `error` event unless the failing
tag was itself `error` (the recursion guard), and the next handler always runs.
Event tags are the runtime strings of `StreamType` and the system events. -/
def emit (event : String) (data : Json) : List (Json → HandlerOutcome) → EmitTrace
  | [] => { invoked := 0, errorEvents := [] }
  | h :: rest =>
    let tr := emit event data rest
    match h data with
    | .ok => { invoked := tr.invoked + 1, errorEvents := tr.errorEvents }
    | .threw m =>
        { invoked := tr.invoked + 1,
          errorEvents :=
            (if event = "error" then [] else [handlerErrorMessage event m]) ++ tr.errorEvents }

/-- Whether a handler throws on the given payload. -/
def throwsOn (data : Json) (h : Json → HandlerOutcome) : Bool :=
  match h data with
  | .ok => false
  | .threw _ => true

/-- C2: `emit` invokes every currently-registered handler of the tag even when
earlier handlers throw; when the tag is not `error`, each throwing handler
produces exactly one `error` event; when the failing tag is itself `error`, no
`error` event is re-emitted (no recursion). -/
theorem emit_isolates_handler_failures (event : String) (data : Json)
    (handlers : List (Json → HandlerOutcome)) :
    (emit event data handlers).invoked = handlers.length
    ∧ (event ≠ "error" →
        (emit event data handlers).errorEvents.length
          = (handlers.filter (throwsOn data)).length)
    ∧ (event = "error" → (emit event data handlers).errorEvents = []) := by
  induction handlers with
  | nil => exact ⟨rfl, fun _ => rfl, fun _ => rfl⟩
  | cons h rest ih =>
    refine ⟨?_, ?_, ?_⟩
    · cases hout : h data <;> simp [emit, hout, ih.1]
    · intro hne
      cases hout : h data <;>
        simp [emit, hout, throwsOn, List.filter_cons, ih.2.1 hne, hne]
    · intro heq
      subst heq
      cases hout : h data <;> simp [emit, hout, ih.2.2 rfl]

/-- A handler that always returns normally (for the witness). -/
def okHandler : Json → HandlerOutcome := fun _ => HandlerOutcome.ok

/-- A handler that always throws (for the witness). -/
def throwingHandler : Json → HandlerOutcome := fun _ => HandlerOutcome.threw "boom"

/-- C2 witness: with handlers [ok, throwing, ok] on the `transcription` tag, all
three handlers run and exactly one error event is produced. -/
theorem emit_isolates_handler_failures_witness :
    (emit "transcription" Json.null [okHandler, throwingHandler, okHandler]).invoked = 3
    ∧ (emit "transcription" Json.null [okHandler, throwingHandler, okHandler]).errorEvents.length
        = 1 := by
  have h := emit_isolates_handler_failures "transcription" Json.null
    [okHandler, throwingHandler, okHandler]
  refine ⟨h.1, ?_⟩
  rw [h.2.1 (by decide)]
  rfl

/-- Embeds `EventManager.addHandler(type, handler)`.  The `Map<EventType,
Set<Handler>>` of stream handlers is modelled as a total function from stream
tags to the insertion-ordered duplicate-free list of registered handler
identities (an absent key reads as the empty set, and empty sets are never left
in the map by removeHandler).  Returns the updated map together with the number
of invocations of the `subscribe` callback made by this call. -/
def addHandler (m : StreamType → List Nat) (t : StreamType) (h : Nat) :
    (StreamType → List Nat) × Nat :=
  let hs := m t
  let subscribeCalls := if hs.length = 0 then 1 else 0
  let hs2 := if h ∈ hs then hs else hs ++ [h]
  (fun t2 => if t2 = t then hs2 else m t2, subscribeCalls)

/-- C7: registering a handler for a tag with no currently-registered handler
invokes the subscribe callback exactly once; registering while at least one
handler is registered invokes it zero times; in particular a second registration
right after a first one never subscribes again. -/
theorem addHandler_subscribes_once (m : StreamType → List Nat) (t : StreamType) (h h2 : Nat) :
    (m t = [] → (addHandler m t h).2 = 1)
    ∧ (m t ≠ [] → (addHandler m t h).2 = 0)
    ∧ (addHandler (addHandler m t h).1 t h2).2 = 0 := by
  refine ⟨?_, ?_, ?_⟩
  · intro h0
    simp [addHandler, h0]
  · intro h0
    simp [addHandler, List.length_eq_zero, h0]
  · by_cases hmem : h ∈ m t
    · have hne : m t ≠ [] := List.ne_nil_of_mem hmem
      simp [addHandler, hmem, List.length_eq_zero, hne]
    · simp [addHandler, hmem, List.length_eq_zero]

/-- C7 witness: on the empty handlers map, a first registration for the
`transcription` tag subscribes once and a second registration does not. -/
theorem addHandler_subscribes_once_witness :
    (addHandler (fun _ => []) StreamType.transcription 0).2 = 1
    ∧ (addHandler (addHandler (fun _ => []) StreamType.transcription 0).1
        StreamType.transcription 1).2 = 0 := by
  have h := addHandler_subscribes_once (fun _ => []) StreamType.transcription 0 1
  exact ⟨h.1 rfl, h.2.2⟩

/-- A settings value: the `AppSetting` value union of booleans, numbers and
strings (select options carry their string value). -/
inductive SettingValue where
  | bool (b : Bool)
  | num (n : Int)
  | str (s : String)
deriving DecidableEq

/-- One entry of the `AppSettings` array: a key with its current value. -/
structure Setting where
  key : String
  value : SettingValue
deriving DecidableEq

/-- Embeds `settings.find(s => s.key === key)`. -/
def findSetting (settings : List Setting) (key : String) : Option Setting :=
  settings.find? (fun s => decide (s.key = key))

/-- Embeds one invocation of the closure `settingsHandler` installed by
`EventManager.onSettingChange(key, handler)`: given the remembered
`previousValue` (`none` is JS `undefined`) and an incoming settings snapshot, it
returns the updated remembered value and the calls made to the callback (each a
(newValue, previousValue) pair). -/
def settingChangeStep (key : String) (prev : Option SettingValue) (settings : List Setting) :
    Option SettingValue × List (SettingValue × Option SettingValue) :=
  match findSetting settings key with
  | none => (prev, [])
  | some setting =>
    if prev = some setting.value then (prev, [])
    else (some setting.value, [(setting.value, prev)])

/-- The callback-invocation trace of `onSettingChange` over a sequence of
settings snapshots (as delivered by the `connected` and `settings_update`
events), threading the closure state through the steps. -/
def settingChangeRun (key : String) (prev : Option SettingValue) :
    List (List Setting) → List (SettingValue × Option SettingValue)
  | [] => []
  | snap :: rest =>
    let step := settingChangeStep key prev snap
    step.2 ++ settingChangeRun key step.1 rest

/-- The values of `key` observed across the snapshots, in order (snapshots not
containing the key observe nothing). -/
def observedValues (key : String) (snapshots : List (List Setting)) : List SettingValue :=
  snapshots.filterMap (fun snap => (findSetting snap key).map (fun s => s.value))

/-- Reference behaviour written from the claim (spec side of the comparison):
fire (v, prev) exactly when the observed value v differs from the last observed
value, starting from no observed value. -/
def changeEvents (prev : Option SettingValue) :
    List SettingValue → List (SettingValue × Option SettingValue)
  | [] => []
  | v :: vs =>
    if prev = some v then changeEvents prev vs
    else (v, prev) :: changeEvents (some v) vs

/-- The generalised correspondence, threading an arbitrary remembered value. -/
theorem settingChangeRun_eq_changeEvents (key : String) :
    ∀ (snapshots : List (List Setting)) (prev : Option SettingValue),
      settingChangeRun key prev snapshots = changeEvents prev (observedValues key snapshots) := by
  intro snapshots
  induction snapshots with
  | nil => intro prev; rfl
  | cons snap rest ih =>
    intro prev
    cases hfind : findSetting snap key with
    | none =>
      simp [settingChangeRun, settingChangeStep, observedValues, List.filterMap_cons, hfind,
        ih prev]
    | some setting =>
      by_cases heq : prev = some setting.value
      · subst heq
        simp [settingChangeRun, settingChangeStep, observedValues, changeEvents,
          List.filterMap_cons, hfind, ih (some setting.value)]
      · simp [settingChangeRun, settingChangeStep, observedValues, changeEvents,
          List.filterMap_cons, hfind, heq, ih (some setting.value)]

/-- C6: a callback registered through onSettingChange(key, cb), starting with no
remembered value, is invoked with (newValue, previousValue) exactly when the
value of the key in an observed snapshot differs from the last observed value:
its invocation trace equals the reference change-event trace, so the first
observed value v fires cb(v, undefined) and a snapshot repeating the current
value fires nothing. -/
theorem onSettingChange_fires_iff_changed (key : String) (snapshots : List (List Setting)) :
    settingChangeRun key none snapshots = changeEvents none (observedValues key snapshots) :=
  settingChangeRun_eq_changeEvents key snapshots none

/-- The readyState-to-name map of `TpaSession.send` (`stateMap[readyState]` with
the `UNKNOWN` fallback). -/
def stateName (rs : Nat) : String :=
  if rs = 0 then "CONNECTING"
  else if rs = 1 then "OPEN"
  else if rs = 2 then "CLOSING"
  else if rs = 3 then "CLOSED"
  else "UNKNOWN"

/-- JS property assignment on an object literal: replace in place, else append. -/
def setFieldIn : List (String × Json) → String → Json → List (String × Json)
  | [], k, v => [(k, v)]
  | (k2, v2) :: rest, k, v =>
    if k2 = k then (k, v) :: rest else (k2, v2) :: setFieldIn rest k v

/-- JS `j[k] = v` for the object values that reach the assignment. -/
def Json.setField : Json → String → Json → Json
  | .obj fs, k, v => .obj (setFieldIn fs k v)
  | j, _, _ => j

/-- JS `message.timestamp instanceof Date` on a property read. -/
def isDateValue : Option Json → Bool
  | some (Json.date _) => true
  | _ => false

/-- Embeds the body of `TpaSession.send(message)` up to the channel write: the
channel-handle and readyState guards, the object and `type`-field validation, and
the timestamp stamping.  `ws` is the readyState of the channel handle (`none`
when `this.ws` is null); `now` is the clock read by `new Date()`.  On success it
returns the stamped message handed to `JSON.stringify`/`ws.send` (serialization
of these values cannot fail, so the send wrapper is not an error source here). -/
def sendCore (ws : Option Nat) (message : Json) (now : Int) : Except String Json :=
  match ws with
  | none => Except.error "WebSocket connection not established"
  | some rs =>
    if rs ≠ 1 then
      Except.error ("WebSocket not connected (current state: " ++ stateName rs ++ ")")
    else if !message.truthy || !message.isObjectTypeof then
      Except.error "Invalid message: must be an object"
    else if !(message.hasKey "type") then
      Except.error "Invalid message: missing \x22type\x22 property"
    else
      Except.ok
        (if !(message.hasKey "timestamp") || !(isDateValue (message.get "timestamp")) then
          message.setField "timestamp" (Json.date now)
        else message)

/-- Result of `TpaSession.send`: the value returned or error thrown to the
caller, together with the `error` events emitted through the event router. -/
structure SendResult where
  result : Except String Json
  errorEvents : List String

/-- Embeds `TpaSession.send(message)`: the outer catch of every failure emits the
error as an `error` event and re-throws it to the caller. -/
def send (ws : Option Nat) (message : Json) (now : Int) : SendResult :=
  match sendCore ws message now with
  | .ok m => { result := .ok m, errorEvents := [] }
  | .error e => { result := .error e, errorEvents := [e] }

/-- C3: `send` fails when there is no channel handle, when the channel is not in
the open state (readyState 1), when the message is not an object, or when it has
no `type` field; every such failure emits exactly the raised error as one
`error` event before the error reaches the caller, and the not-open failure
names the specific non-open state (e.g. CONNECTING for readyState 0). -/
theorem send_failure_dual_surfacing (ws : Option Nat) (message : Json) (now : Int)
    (h : ws = none ∨ (∃ rs, ws = some rs ∧ rs ≠ 1)
        ∨ message.truthy = false ∨ message.isObjectTypeof = false
        ∨ message.hasKey "type" = false) :
    (∃ e, (send ws message now).result = Except.error e
        ∧ (send ws message now).errorEvents = [e])
    ∧ (∀ rs, ws = some rs → rs ≠ 1 →
        (send ws message now).result
          = Except.error ("WebSocket not connected (current state: " ++ stateName rs ++ ")")
        ∧ (send ws message now).errorEvents
          = ["WebSocket not connected (current state: " ++ stateName rs ++ ")"]) := by
  have hcore : ∃ e, sendCore ws message now = Except.error e := by
    rcases ws with _ | rs
    · exact ⟨_, rfl⟩
    · by_cases h1 : rs = 1
      · subst h1
        have hmsg : message.truthy = false ∨ message.isObjectTypeof = false
            ∨ message.hasKey "type" = false := by
          rcases h with h | ⟨rs2, hrs, hne⟩ | h | h | h
          · exact absurd h (by simp)
          · injection hrs with h12
            exact absurd h12.symm hne
          · exact Or.inl h
          · exact Or.inr (Or.inl h)
          · exact Or.inr (Or.inr h)
        rcases hmsg with hm | hm | hm
        · exact ⟨"Invalid message: must be an object", by simp [sendCore, hm]⟩
        · exact ⟨"Invalid message: must be an object", by simp [sendCore, hm]⟩
        · by_cases h2 : (!message.truthy || !message.isObjectTypeof) = true
          · exact ⟨"Invalid message: must be an object", by simp [sendCore, h2]⟩
          · exact ⟨"Invalid message: missing \x22type\x22 property",
              by simp [sendCore, h2, hm]⟩
      · exact ⟨"WebSocket not connected (current state: " ++ stateName rs ++ ")",
          by simp [sendCore, h1]⟩
  rcases hcore with ⟨e, he⟩
  refine ⟨⟨e, by simp [send, he], by simp [send, he]⟩, ?_⟩
  intro rs hws hne
  subst hws
  have hst : sendCore (some rs) message now
      = Except.error ("WebSocket not connected (current state: " ++ stateName rs ++ ")") := by
    simp [sendCore, hne]
  exact ⟨by simp [send, hst], by simp [send, hst]⟩

/-- C3 witness: sending a well-formed message on a CONNECTING channel
(readyState 0) throws an error naming CONNECTING and emits that same error as
one `error` event. -/
theorem send_failure_dual_surfacing_witness :
    (send (some 0) (Json.obj [("type", Json.str "ping")]) 0).result
      = Except.error "WebSocket not connected (current state: CONNECTING)"
    ∧ (send (some 0) (Json.obj [("type", Json.str "ping")]) 0).errorEvents
      = ["WebSocket not connected (current state: CONNECTING)"] := by
  have h := (send_failure_dual_surfacing (some 0) (Json.obj [("type", Json.str "ping")]) 0
      (Or.inr (Or.inl ⟨0, rfl, by decide⟩))).2 0 rfl (by decide)
  exact ⟨by simpa using h.1, by simpa using h.2⟩

/-- The reconnection-relevant fields of `this.config` after the constructor
merge (every field populated). -/
structure ReconnConfig where
  autoReconnect : Bool
  maxReconnectAttempts : Nat
  reconnectDelay : Nat

/-- The reconnection-relevant optional fields of the user-supplied
`TpaSessionConfig` (`none` is an omitted field). -/
structure TpaSessionConfigOpts where
  autoReconnect : Option Bool
  maxReconnectAttempts : Option Nat
  reconnectDelay : Option Nat

/-- Embeds the constructor spread `{ autoReconnect: false, maxReconnectAttempts:
0, reconnectDelay: 1000, ...config }` of `TpaSession`. -/
def mergeConfig (c : TpaSessionConfigOpts) : ReconnConfig :=
  { autoReconnect := c.autoReconnect.getD false
    maxReconnectAttempts := c.maxReconnectAttempts.getD 0
    reconnectDelay := c.reconnectDelay.getD 1000 }

/-- JS `this.config.maxReconnectAttempts || 5` (the number 0 is falsy). -/
def effMaxAttempts (c : ReconnConfig) : Nat :=
  if c.maxReconnectAttempts = 0 then 5 else c.maxReconnectAttempts

/-- JS `this.config.reconnectDelay || 1000`. -/
def effBaseDelay (c : ReconnConfig) : Nat :=
  if c.reconnectDelay = 0 then 1000 else c.reconnectDelay

/-- The session fields read and written by `handleReconnection`. -/
structure ReconnState where
  sessionId : Option String
  reconnectAttempts : Nat
deriving DecidableEq

/-- What one `handleReconnection` call does: nothing, or an attempt that waits
`delay` milliseconds and re-invokes `connect(sessionId)`. -/
inductive ReconnAction where
  | noop
  | attempt (delay : Nat) (sessionId : String)
deriving DecidableEq

/-- Embeds `TpaSession.handleReconnection()`: the auto-reconnect / session-id /
attempt-budget guards (JS falsiness makes the empty-string session id act as
unset), the exponential backoff delay computed before the counter increment, and
the counter update after the awaited `connect` — reset to 0 on success,
left at the incremented value plus an emitted `error` event on failure
(`connectOk` abstracts the outcome of the awaited `connect(sessionId)`).
Returns (action, new state, emitted error events). -/
def handleReconnection (c : ReconnConfig) (s : ReconnState) (connectOk : Bool) :
    ReconnAction × ReconnState × List String :=
  if c.autoReconnect = false then (.noop, s, [])
  else
    match s.sessionId with
    | none => (.noop, s, [])
    | some sid =>
      if sid = "" then (.noop, s, [])
      else if effMaxAttempts c ≤ s.reconnectAttempts then (.noop, s, [])
      else
        let delay := effBaseDelay c * 2 ^ s.reconnectAttempts
        if connectOk then
          (.attempt delay sid, { s with reconnectAttempts := 0 }, [])
        else
          (.attempt delay sid, { s with reconnectAttempts := s.reconnectAttempts + 1 },
            ["Reconnection failed"])

/-- Iterates `handleReconnection` with every reconnect attempt failing. -/
def failRun (c : ReconnConfig) (s : ReconnState) : Nat → ReconnState
  | 0 => s
  | n + 1 => failRun c (handleReconnection c s false).2.1 n

/-- Under the guards that allow reconnection, `n` failed attempts advance the
counter from `k` to `k + n` while the budget is not exceeded. -/
theorem failRun_attempts (c : ReconnConfig) (sid : String)
    (hauto : c.autoReconnect = true) (hsid : sid ≠ "") :
    ∀ n k, k + n ≤ effMaxAttempts c →
      failRun c { sessionId := some sid, reconnectAttempts := k } n
        = { sessionId := some sid, reconnectAttempts := k + n } := by
  intro n
  induction n with
  | zero => intro k hk; simp [failRun]
  | succ n ih =>
    intro k hk
    have hklt : k < effMaxAttempts c := by omega
    have hstep :
        (handleReconnection c { sessionId := some sid, reconnectAttempts := k } false).2.1
          = { sessionId := some sid, reconnectAttempts := k + 1 } := by
      simp [handleReconnection, hauto, hsid, Nat.not_le.mpr hklt]
    rw [failRun, hstep, ih (k + 1) (by omega)]
    congr 1
    omega

/-- C4: `handleReconnection` no-ops when auto-reconnect is disabled, no session
id is set (unset or the falsy empty string), or the attempt counter reached the
configured maximum; otherwise attempt N (made with counter N-1) waits
baseDelay times 2 to the (N-1), re-invokes connect with the same session id,
and leaves the counter incremented on failure (plus one error event) and reset
to zero only on success; iterating failures from a fresh counter, the budget-th
failure is the last attempt; an omitted user config yields maximum 5 and base
delay 1000ms. -/
theorem handleReconnection_spec (c : ReconnConfig) (s : ReconnState) (connectOk : Bool) :
    ((c.autoReconnect = false ∨ s.sessionId = none ∨ s.sessionId = some ""
        ∨ effMaxAttempts c ≤ s.reconnectAttempts) →
      handleReconnection c s connectOk = (ReconnAction.noop, s, []))
    ∧ (∀ sid, c.autoReconnect = true → s.sessionId = some sid → sid ≠ "" →
        s.reconnectAttempts < effMaxAttempts c →
        (handleReconnection c s connectOk).1
            = ReconnAction.attempt (effBaseDelay c * 2 ^ s.reconnectAttempts) sid
          ∧ (connectOk = false →
              (handleReconnection c s connectOk).2.1
                  = { s with reconnectAttempts := s.reconnectAttempts + 1 }
                ∧ (handleReconnection c s connectOk).2.2 = ["Reconnection failed"])
          ∧ (connectOk = true →
              (handleReconnection c s connectOk).2.1 = { s with reconnectAttempts := 0 }
                ∧ (handleReconnection c s connectOk).2.2 = []))
    ∧ (∀ sid, c.autoReconnect = true → sid ≠ "" →
        handleReconnection c
            (failRun c { sessionId := some sid, reconnectAttempts := 0 } (effMaxAttempts c))
            connectOk
          = (ReconnAction.noop,
              failRun c { sessionId := some sid, reconnectAttempts := 0 } (effMaxAttempts c),
              []))
    ∧ effMaxAttempts (mergeConfig
        { autoReconnect := none, maxReconnectAttempts := none, reconnectDelay := none }) = 5
    ∧ effBaseDelay (mergeConfig
        { autoReconnect := none, maxReconnectAttempts := none, reconnectDelay := none })
        = 1000 := by
  refine ⟨?_, ?_, ?_, by rfl, by rfl⟩
  · intro h
    by_cases ha : c.autoReconnect = false
    · simp [handleReconnection, ha]
    · rcases hs : s.sessionId with _ | sid
      · simp [handleReconnection, ha, hs]
      · rcases h with h | h | h | h
        · exact absurd h ha
        · rw [hs] at h; cases h
        · rw [hs] at h
          injection h with h2
          subst h2
          simp [handleReconnection, ha, hs]
        · by_cases hsid : sid = ""
          · simp [handleReconnection, ha, hs, hsid]
          · simp [handleReconnection, ha, hs, hsid, h]
  · intro sid hauto hsess hsid hlt
    have hnle := Nat.not_le.mpr hlt
    refine ⟨?_, ?_, ?_⟩
    · cases connectOk <;> simp [handleReconnection, hauto, hsess, hsid, hnle]
    · rintro rfl
      exact ⟨by simp [handleReconnection, hauto, hsess, hsid, hnle],
        by simp [handleReconnection, hauto, hsess, hsid, hnle]⟩
    · rintro rfl
      exact ⟨by simp [handleReconnection, hauto, hsess, hsid, hnle],
        by simp [handleReconnection, hauto, hsess, hsid, hnle]⟩
  · intro sid hauto hsid
    rw [failRun_attempts c sid hauto hsid (effMaxAttempts c) 0 (by omega)]
    simp [handleReconnection, hauto, hsid]

/-- C4 witness: with auto-reconnect on, session id "s1" and 2 attempts already
made under the default budget of 5 and default base delay, the third attempt
waits 1000 times 2 squared = 4000ms, and a failed attempt advances the counter
to 3. -/
theorem handleReconnection_spec_witness :
    (handleReconnection { autoReconnect := true, maxReconnectAttempts := 0, reconnectDelay := 0 }
        { sessionId := some "s1", reconnectAttempts := 2 } false).1
      = ReconnAction.attempt 4000 "s1"
    ∧ (handleReconnection { autoReconnect := true, maxReconnectAttempts := 0, reconnectDelay := 0 }
        { sessionId := some "s1", reconnectAttempts := 2 } false).2.1.reconnectAttempts = 3 := by
  have h := (handleReconnection_spec
      { autoReconnect := true, maxReconnectAttempts := 0, reconnectDelay := 0 }
      { sessionId := some "s1", reconnectAttempts := 2 } false).2.1 "s1" rfl rfl
      (by decide) (by decide)
  refine ⟨by simpa using h.1, ?_⟩
  rw [(h.2.1 rfl).1]

/-- A `tpa_config.json` settings entry: a display group or a declared setting
with its default value. -/
inductive ConfigEntry where
  | group (title : String)
  | setting (key : String) (defaultValue : SettingValue)

/-- The TPA configuration document (`TpaConfig`). -/
structure TpaConfig where
  settings : List ConfigEntry

/-- Embeds `TpaSession.getDefaultSettings()` on a loaded config: drop group
entries and set the value of each declared setting to its default value. -/
def getDefaultSettings (cfg : TpaConfig) : List Setting :=
  cfg.settings.filterMap fun e =>
    match e with
    | .group _ => none
    | .setting k d => some { key := k, value := d }

/-- JS `Set.add` on the insertion-ordered duplicate-free element list. -/
def insertUniq (l : List StreamType) (t : StreamType) : List StreamType :=
  if t ∈ l then l else l ++ [t]

/-- The observable effects of the message-handling and subscription paths:
event-router emissions and outbound subscription pushes. -/
inductive Action where
  | emitConnected (settings : List Setting)
  | emitSettingsUpdate (settings : List Setting)
  | emitError (msg : String)
  | sendSubscriptionUpdate (subscriptions : List StreamType)
deriving DecidableEq

/-- The `TpaSession` fields involved in the message-handling and subscription
paths.  `wsReadyState` is the readyState of the channel handle (`none` for a
null handle); the subscription `Set<StreamType>` is its insertion-ordered
duplicate-free element list. -/
structure SessionState where
  wsReadyState : Option Nat
  settings : List Setting
  tpaConfig : Option TpaConfig
  subscriptions : List StreamType
  shouldUpdateSubscriptionsOnSettingsChange : Bool
  subscriptionSettingsHandler : Option (List Setting → List StreamType)
  subscriptionUpdateTriggers : List String

/-- The failure condition of `TpaSession.send` for the always well-formed
`SUBSCRIPTION_UPDATE` message built by `updateSubscriptions` (an object with a
`type` field, so only the channel guards can fire). -/
def sendOutcome (ws : Option Nat) : Except String Unit :=
  match ws with
  | none => Except.error "WebSocket connection not established"
  | some rs =>
    if rs ≠ 1 then
      Except.error ("WebSocket not connected (current state: " ++ stateName rs ++ ")")
    else Except.ok ()

/-- Embeds `TpaSession.updateSubscriptions()`: push the full current
subscription list through `send`; returns the emitted actions and the error
`send` threw, if any (`send` emits the error event before re-throwing). -/
def updateSubscriptionsRun (s : SessionState) : List Action × Option String :=
  match sendOutcome s.wsReadyState with
  | .ok _ => ([Action.sendSubscriptionUpdate s.subscriptions], none)
  | .error e => ([Action.emitError e], some e)

/-- Embeds `TpaSession.updateSubscriptionsFromSettings()`: a no-op without a
handler; otherwise clear the subscription set, add every handler-returned tag,
and push the new list when the channel handle exists and is open. -/
def updateSubscriptionsFromSettings (s : SessionState) : SessionState × List Action :=
  match s.subscriptionSettingsHandler with
  | none => (s, [])
  | some f =>
    let newSubscriptions := f s.settings
    let s2 := { s with subscriptions := newSubscriptions.foldl insertUniq [] }
    if s2.wsReadyState = some 1 then
      (s2, [Action.sendSubscriptionUpdate s2.subscriptions])
    else (s2, [])

/-- The config adopted by the `CONNECTION_ACK` branch: `message.config` only
when it passes `validateTpaConfig` (a predicate parameter of the model),
otherwise the previously stored config. -/
def ackConfig (s : SessionState) (msgConfig : Option TpaConfig)
    (validateTpaConfig : TpaConfig → Bool) : Option TpaConfig :=
  match msgConfig with
  | some cfg => if validateTpaConfig cfg then some cfg else s.tpaConfig
  | none => s.tpaConfig

/-- The settings adopted by the `CONNECTION_ACK` branch: `message.settings || []`,
replaced by the defaults of the (just adopted) config when empty and a config is
known. -/
def ackSettings (s : SessionState) (msgSettings : Option (List Setting))
    (msgConfig : Option TpaConfig) (validateTpaConfig : TpaConfig → Bool) : List Setting :=
  let settings1 := msgSettings.getD []
  match ackConfig s msgConfig validateTpaConfig with
  | some cfg => if settings1.isEmpty then getDefaultSettings cfg else settings1
  | none => settings1

/-- Embeds the `isTpaConnectionAck` branch of `TpaSession.handleMessage`: adopt
settings and config, emit `connected` with the resulting settings, push the
current subscription list (a `send` failure is caught by the surrounding
processing catch, emitted as an error event, and aborts the branch), then run
the settings-driven recomputation when enabled and the settings are non-empty. -/
def handleConnectionAck (s : SessionState) (msgSettings : Option (List Setting))
    (msgConfig : Option TpaConfig) (validateTpaConfig : TpaConfig → Bool) :
    SessionState × List Action :=
  let s1 := { s with settings := ackSettings s msgSettings msgConfig validateTpaConfig,
                     tpaConfig := ackConfig s msgConfig validateTpaConfig }
  let push := updateSubscriptionsRun s1
  match push.2 with
  | some e =>
    (s1, Action.emitConnected s1.settings :: push.1
          ++ [Action.emitError ("Error processing message: " ++ e)])
  | none =>
    if s1.shouldUpdateSubscriptionsOnSettingsChange && !s1.settings.isEmpty then
      let next := updateSubscriptionsFromSettings s1
      (next.1, Action.emitConnected s1.settings :: push.1 ++ next.2)
    else
      (s1, Action.emitConnected s1.settings :: push.1)

/-- Over an open channel, `updateSubscriptions` pushes the full current
subscription list and `send` does not throw. -/
theorem updateSubscriptionsRun_open (s : SessionState) (h : s.wsReadyState = some 1) :
    updateSubscriptionsRun s = ([Action.sendSubscriptionUpdate s.subscriptions], none) := by
  simp [updateSubscriptionsRun, sendOutcome, h]

/-- C5: on a `CONNECTION_ACK` received over an open channel, the session adopts
the carried settings (else the empty list), adopts the carried config exactly
when it passes config validation, derives settings from the config defaults
when the adopted settings are empty and a config is known, emits `connected`
with the resulting settings followed by a push of the current subscription
list, and, when settings-driven subscriptions are enabled with a handler and
the resulting settings are non-empty, recomputes the subscriptions from the
settings and pushes them too. -/
theorem handleConnectionAck_spec (s : SessionState) (msgSettings : Option (List Setting))
    (msgConfig : Option TpaConfig) (validateTpaConfig : TpaConfig → Bool)
    (hws : s.wsReadyState = some 1) :
    (handleConnectionAck s msgSettings msgConfig validateTpaConfig).1.settings
        = ackSettings s msgSettings msgConfig validateTpaConfig
    ∧ (handleConnectionAck s msgSettings msgConfig validateTpaConfig).1.tpaConfig
        = ackConfig s msgConfig validateTpaConfig
    ∧ (∀ cfg, msgConfig = some cfg → validateTpaConfig cfg = true →
        ackConfig s msgConfig validateTpaConfig = some cfg)
    ∧ (∀ cfg, msgConfig = some cfg → validateTpaConfig cfg = false →
        ackConfig s msgConfig validateTpaConfig = s.tpaConfig)
    ∧ (∀ l, msgSettings = some l → l ≠ [] →
        ackSettings s msgSettings msgConfig validateTpaConfig = l)
    ∧ (∀ cfg, (msgSettings.getD []).isEmpty = true →
        ackConfig s msgConfig validateTpaConfig = some cfg →
        ackSettings s msgSettings msgConfig validateTpaConfig = getDefaultSettings cfg)
    ∧ (∃ rest, (handleConnectionAck s msgSettings msgConfig validateTpaConfig).2
        = Action.emitConnected (ackSettings s msgSettings msgConfig validateTpaConfig)
          :: Action.sendSubscriptionUpdate s.subscriptions :: rest)
    ∧ (∀ f, s.shouldUpdateSubscriptionsOnSettingsChange = true →
        s.subscriptionSettingsHandler = some f →
        ackSettings s msgSettings msgConfig validateTpaConfig ≠ [] →
        (handleConnectionAck s msgSettings msgConfig validateTpaConfig).1.subscriptions
            = (f (ackSettings s msgSettings msgConfig validateTpaConfig)).foldl insertUniq []
        ∧ (handleConnectionAck s msgSettings msgConfig validateTpaConfig).2
            = [Action.emitConnected (ackSettings s msgSettings msgConfig validateTpaConfig),
               Action.sendSubscriptionUpdate s.subscriptions,
               Action.sendSubscriptionUpdate
                 ((f (ackSettings s msgSettings msgConfig validateTpaConfig)).foldl
                   insertUniq [])])
    ∧ ((s.shouldUpdateSubscriptionsOnSettingsChange = false
          ∨ ackSettings s msgSettings msgConfig validateTpaConfig = []) →
        (handleConnectionAck s msgSettings msgConfig validateTpaConfig).1.subscriptions
            = s.subscriptions
        ∧ (handleConnectionAck s msgSettings msgConfig validateTpaConfig).2
            = [Action.emitConnected (ackSettings s msgSettings msgConfig validateTpaConfig),
               Action.sendSubscriptionUpdate s.subscriptions]) := by
  refine ⟨?_, ?_, ?_, ?_, ?_, ?_, ?_, ?_, ?_⟩
  · by_cases hmode : s.shouldUpdateSubscriptionsOnSettingsChange
        && !(ackSettings s msgSettings msgConfig validateTpaConfig).isEmpty
    · cases hf : s.subscriptionSettingsHandler <;>
        simp [handleConnectionAck, updateSubscriptionsRun_open, hws, hmode,
          updateSubscriptionsFromSettings, hf]
    · simp [handleConnectionAck, updateSubscriptionsRun_open, hws, hmode]
  · by_cases hmode : s.shouldUpdateSubscriptionsOnSettingsChange
        && !(ackSettings s msgSettings msgConfig validateTpaConfig).isEmpty
    · cases hf : s.subscriptionSettingsHandler <;>
        simp [handleConnectionAck, updateSubscriptionsRun_open, hws, hmode,
          updateSubscriptionsFromSettings, hf]
    · simp [handleConnectionAck, updateSubscriptionsRun_open, hws, hmode]
  · intro cfg h1 h2
    simp [ackConfig, h1, h2]
  · intro cfg h1 h2
    simp [ackConfig, h1, h2]
  · intro l h1 h2
    cases l with
    | nil => exact absurd rfl h2
    | cons a as =>
      cases hc : ackConfig s msgConfig validateTpaConfig <;> simp [ackSettings, h1, hc]
  · intro cfg hemp hc
    simp [ackSettings, hc, hemp]
  · by_cases hmode : s.shouldUpdateSubscriptionsOnSettingsChange
        && !(ackSettings s msgSettings msgConfig validateTpaConfig).isEmpty
    · cases hf : s.subscriptionSettingsHandler with
      | none =>
        refine ⟨[], ?_⟩
        simp [handleConnectionAck, updateSubscriptionsRun_open, hws, hmode,
          updateSubscriptionsFromSettings, hf]
      | some f =>
        refine ⟨[Action.sendSubscriptionUpdate
          ((f (ackSettings s msgSettings msgConfig validateTpaConfig)).foldl insertUniq [])], ?_⟩
        simp [handleConnectionAck, updateSubscriptionsRun_open, hws, hmode,
          updateSubscriptionsFromSettings, hf]
    · refine ⟨[], ?_⟩
      simp [handleConnectionAck, updateSubscriptionsRun_open, hws, hmode]
  · intro f hmode hf hne
    have hbe : (s.shouldUpdateSubscriptionsOnSettingsChange
        && !(ackSettings s msgSettings msgConfig validateTpaConfig).isEmpty) = true := by
      simp [hmode, hne]
    constructor <;>
      simp [handleConnectionAck, updateSubscriptionsRun_open, hws, hbe,
        updateSubscriptionsFromSettings, hf]
  · intro hoff
    have hbe : (s.shouldUpdateSubscriptionsOnSettingsChange
        && !(ackSettings s msgSettings msgConfig validateTpaConfig).isEmpty) = false := by
      rcases hoff with h | h <;> simp [h]
    constructor <;> simp [handleConnectionAck, updateSubscriptionsRun_open, hws, hbe]

/-- C5 witness: an ACK carrying the settings list [vol = 5] over an open channel
with settings-driven subscriptions disabled adopts exactly that list, emits
`connected` with it and pushes the current (empty) subscription list. -/
theorem handleConnectionAck_spec_witness :
    (handleConnectionAck
        { wsReadyState := some 1, settings := [], tpaConfig := none, subscriptions := [],
          shouldUpdateSubscriptionsOnSettingsChange := false,
          subscriptionSettingsHandler := none, subscriptionUpdateTriggers := [] }
        (some [{ key := "vol", value := SettingValue.num 5 }]) none (fun _ => true)).1.settings
      = [{ key := "vol", value := SettingValue.num 5 }]
    ∧ (handleConnectionAck
        { wsReadyState := some 1, settings := [], tpaConfig := none, subscriptions := [],
          shouldUpdateSubscriptionsOnSettingsChange := false,
          subscriptionSettingsHandler := none, subscriptionUpdateTriggers := [] }
        (some [{ key := "vol", value := SettingValue.num 5 }]) none (fun _ => true)).2
      = [Action.emitConnected [{ key := "vol", value := SettingValue.num 5 }],
         Action.sendSubscriptionUpdate []] := by
  have h := handleConnectionAck_spec
    { wsReadyState := some 1, settings := [], tpaConfig := none, subscriptions := [],
      shouldUpdateSubscriptionsOnSettingsChange := false,
      subscriptionSettingsHandler := none, subscriptionUpdateTriggers := [] }
    (some [{ key := "vol", value := SettingValue.num 5 }]) none (fun _ => true) rfl
  have hack : ackSettings
      { wsReadyState := some 1, settings := [], tpaConfig := none, subscriptions := [],
        shouldUpdateSubscriptionsOnSettingsChange := false,
        subscriptionSettingsHandler := none, subscriptionUpdateTriggers := [] }
      (some [{ key := "vol", value := SettingValue.num 5 }]) none (fun _ => true)
      = [{ key := "vol", value := SettingValue.num 5 }] :=
    h.2.2.2.2.1 [{ key := "vol", value := SettingValue.num 5 }] rfl (by simp)
  have hacts := (h.2.2.2.2.2.2.2.2 (Or.inl rfl)).2
  rw [hack] at hacts
  exact ⟨by rw [h.1, hack], hacts⟩

/-- Embeds the trigger-change test of the `SETTINGS_UPDATE` branch: a watched
key changed when it appears where it was previously absent, or when both
versions carry different values (a disappeared key is not a change). -/
def settingChanged (prevSettings newSettings : List Setting) (key : String) : Bool :=
  match findSetting prevSettings key, findSetting newSettings key with
  | none, some _ => true
  | some o, some n => decide (o.value ≠ n.value)
  | _, _ => false

/-- Embeds the `isSettingsUpdate` branch of `TpaSession.handleMessage`: snapshot
the previous settings, replace them with `message.settings || []`, emit the
system `settings_update` event, and — when settings-driven subscription mode is
enabled — recompute and push subscriptions exactly when a watched trigger key
changed. -/
def handleSettingsUpdate (s : SessionState) (msgSettings : Option (List Setting)) :
    SessionState × List Action :=
  let prevSettings := s.settings
  let s1 := { s with settings := msgSettings.getD [] }
  if s1.shouldUpdateSubscriptionsOnSettingsChange then
    if s1.subscriptionUpdateTriggers.any (fun k => settingChanged prevSettings s1.settings k)
    then
      let next := updateSubscriptionsFromSettings s1
      (next.1, Action.emitSettingsUpdate s1.settings :: next.2)
    else (s1, [Action.emitSettingsUpdate s1.settings])
  else (s1, [Action.emitSettingsUpdate s1.settings])

/-- C8: on a `SETTINGS_UPDATE` received over an open channel, the session
replaces its settings with the carried list (default empty) and emits
`settings_update` first; a watched trigger key counts as changed exactly when
it appears where it was previously absent or its value differs; with
settings-driven mode enabled and a handler installed, subscriptions are
recomputed from the new settings and pushed if and only if at least one watched
trigger key changed. -/
theorem handleSettingsUpdate_spec (s : SessionState) (msgSettings : Option (List Setting))
    (f : List Setting → List StreamType) (hws : s.wsReadyState = some 1)
    (hf : s.subscriptionSettingsHandler = some f) :
    (handleSettingsUpdate s msgSettings).1.settings = msgSettings.getD []
    ∧ (handleSettingsUpdate s msgSettings).2.head?
        = some (Action.emitSettingsUpdate (msgSettings.getD []))
    ∧ (∀ prev next key, settingChanged prev next key = true ↔
        ((findSetting prev key = none ∧ (findSetting next key).isSome = true)
          ∨ (∃ o n, findSetting prev key = some o ∧ findSetting next key = some n
              ∧ o.value ≠ n.value)))
    ∧ (s.shouldUpdateSubscriptionsOnSettingsChange = true →
        s.subscriptionUpdateTriggers.any
            (fun k => settingChanged s.settings (msgSettings.getD []) k) = true →
        (handleSettingsUpdate s msgSettings).1.subscriptions
            = (f (msgSettings.getD [])).foldl insertUniq []
        ∧ (handleSettingsUpdate s msgSettings).2
            = [Action.emitSettingsUpdate (msgSettings.getD []),
               Action.sendSubscriptionUpdate ((f (msgSettings.getD [])).foldl insertUniq [])])
    ∧ ((s.shouldUpdateSubscriptionsOnSettingsChange = false
          ∨ s.subscriptionUpdateTriggers.any
              (fun k => settingChanged s.settings (msgSettings.getD [])  k) = false) →
        (handleSettingsUpdate s msgSettings).1.subscriptions = s.subscriptions
        ∧ (handleSettingsUpdate s msgSettings).2
            = [Action.emitSettingsUpdate (msgSettings.getD [])]) := by
  refine ⟨?_, ?_, ?_, ?_, ?_⟩
  · by_cases hmode : s.shouldUpdateSubscriptionsOnSettingsChange
    · by_cases htrig : s.subscriptionUpdateTriggers.any
          (fun k => settingChanged s.settings (msgSettings.getD []) k)
      · simp [handleSettingsUpdate, hmode, htrig, updateSubscriptionsFromSettings, hf, hws]
      · simp [handleSettingsUpdate, hmode, htrig]
    · simp [handleSettingsUpdate, hmode]
  · by_cases hmode : s.shouldUpdateSubscriptionsOnSettingsChange
    · by_cases htrig : s.subscriptionUpdateTriggers.any
          (fun k => settingChanged s.settings (msgSettings.getD []) k)
      · simp [handleSettingsUpdate, hmode, htrig, updateSubscriptionsFromSettings, hf, hws]
      · simp [handleSettingsUpdate, hmode, htrig]
    · simp [handleSettingsUpdate, hmode]
  · intro prev next key
    cases hp : findSetting prev key <;> cases hn : findSetting next key <;>
      simp [settingChanged, hp, hn]
  · intro hmode htrig
    constructor <;>
      simp [handleSettingsUpdate, hmode, htrig, updateSubscriptionsFromSettings, hf, hws]
  · intro hoff
    rcases hoff with h | h
    · constructor <;> simp [handleSettingsUpdate, h]
    · by_cases hmode : s.shouldUpdateSubscriptionsOnSettingsChange
      · constructor <;> simp [handleSettingsUpdate, hmode, h]
      · constructor <;> simp [handleSettingsUpdate, hmode]

/-- C8 witness: over an open channel with mode enabled, trigger key "lang", and
a handler subscribing to transcription, an update changing "lang" recomputes
and pushes the subscriptions. -/
theorem handleSettingsUpdate_spec_witness :
    (handleSettingsUpdate
        { wsReadyState := some 1, settings := [], tpaConfig := none, subscriptions := [],
          shouldUpdateSubscriptionsOnSettingsChange := true,
          subscriptionSettingsHandler := some (fun _ => [StreamType.transcription]),
          subscriptionUpdateTriggers := ["lang"] }
        (some [{ key := "lang", value := SettingValue.str "en" }])).1.subscriptions
      = [StreamType.transcription]
    ∧ (handleSettingsUpdate
        { wsReadyState := some 1, settings := [], tpaConfig := none, subscriptions := [],
          shouldUpdateSubscriptionsOnSettingsChange := true,
          subscriptionSettingsHandler := some (fun _ => [StreamType.transcription]),
          subscriptionUpdateTriggers := ["lang"] }
        (some [{ key := "lang", value := SettingValue.str "en" }])).2
      = [Action.emitSettingsUpdate [{ key := "lang", value := SettingValue.str "en" }],
         Action.sendSubscriptionUpdate [StreamType.transcription]] := by
  have h := (handleSettingsUpdate_spec
      { wsReadyState := some 1, settings := [], tpaConfig := none, subscriptions := [],
        shouldUpdateSubscriptionsOnSettingsChange := true,
        subscriptionSettingsHandler := some (fun _ => [StreamType.transcription]),
        subscriptionUpdateTriggers := ["lang"] }
      (some [{ key := "lang", value := SettingValue.str "en" }])
      (fun _ => [StreamType.transcription]) rfl rfl).2.2.2.1 rfl
      (by simp [settingChanged, findSetting])
  refine ⟨by simpa [insertUniq] using h.1, by simpa [insertUniq] using h.2⟩

/-- Embeds `TpaSession.subscribe(type)`: add the tag to the subscription set,
and push the full subscription list only when the channel handle exists and its
readyState is open. -/
def subscribe (s : SessionState) (t : StreamType) : SessionState × List Action :=
  let s1 := { s with subscriptions := insertUniq s.subscriptions t }
  if s1.wsReadyState = some 1 then (s1, (updateSubscriptionsRun s1).1)
  else (s1, [])

/-- The added tag is always in the updated set. -/
theorem mem_insertUniq (l : List StreamType) (t : StreamType) : t ∈ insertUniq l t := by
  by_cases h : t ∈ l <;> simp [insertUniq, h]

/-- C10: calling subscribe while the channel handle is absent or not open adds
the tag to the subscription set, performs no send and raises no error (no
actions at all), and the tag is part of the full list that the next
subscription push over an open channel sends. -/
theorem subscribe_deferred_push (s : SessionState) (t : StreamType)
    (h : s.wsReadyState ≠ some 1) :
    (subscribe s t).1.subscriptions = insertUniq s.subscriptions t
    ∧ t ∈ (subscribe s t).1.subscriptions
    ∧ (subscribe s t).2 = []
    ∧ updateSubscriptionsRun { (subscribe s t).1 with wsReadyState := some 1 }
        = ([Action.sendSubscriptionUpdate (subscribe s t).1.subscriptions], none)
    ∧ t ∈ (subscribe s t).1.subscriptions := by
  have h1 : (subscribe s t).1.subscriptions = insertUniq s.subscriptions t := by
    simp [subscribe, h]
  have h3 : (subscribe s t).2 = [] := by
    simp [subscribe, h]
  refine ⟨h1, ?_, h3, ?_, ?_⟩
  · rw [h1]; exact mem_insertUniq s.subscriptions t
  · rw [updateSubscriptionsRun_open _ rfl]
  · rw [h1]; exact mem_insertUniq s.subscriptions t

/-- C10 witness: subscribing to transcription with a null channel handle stores
the tag, performs no send and raises no error. -/
theorem subscribe_deferred_push_witness :
    (subscribe
        { wsReadyState := none, settings := [], tpaConfig := none, subscriptions := [],
          shouldUpdateSubscriptionsOnSettingsChange := false,
          subscriptionSettingsHandler := none, subscriptionUpdateTriggers := [] }
        StreamType.transcription).1.subscriptions = [StreamType.transcription]
    ∧ (subscribe
        { wsReadyState := none, settings := [], tpaConfig := none, subscriptions := [],
          shouldUpdateSubscriptionsOnSettingsChange := false,
          subscriptionSettingsHandler := none, subscriptionUpdateTriggers := [] }
        StreamType.transcription).2 = [] := by
  have h := subscribe_deferred_push
    { wsReadyState := none, settings := [], tpaConfig := none, subscriptions := [],
      shouldUpdateSubscriptionsOnSettingsChange := false,
      subscriptionSettingsHandler := none, subscriptionUpdateTriggers := [] }
    StreamType.transcription (by simp)
  exact ⟨by simpa [insertUniq] using h.1, h.2.2.1⟩

/-- Reading a JS array object from the store of allocated arrays (an array
reference is an index into the store). -/
def readRef (heap : List (List Setting)) (r : Nat) : List Setting :=
  (heap[r]?).getD []

/-- Mutating a JS array object in place through a reference. -/
def writeRef (heap : List (List Setting)) (r : Nat) (v : List Setting) :
    List (List Setting) :=
  heap.set r v

/-- The `settings` field of the session as a reference to an array in the store. -/
structure SessionRef where
  settingsRef : Nat

/-- Embeds `TpaSession.getSettings()`: allocate a fresh array holding
`[...this.settings]` (a copy) and return the session (read, never written), the
extended store, and the reference of the new array. -/
def getSettings (s : SessionRef) (heap : List (List Setting)) :
    SessionRef × List (List Setting) × Nat :=
  (s, heap ++ [readRef heap s.settingsRef], heap.length)

/-- Embeds `TpaSession.getSetting(key)`: read the current settings array and
return the value stored under the key, if any. -/
def getSetting (s : SessionRef) (heap : List (List Setting)) (key : String) :
    Option SettingValue :=
  (findSetting (readRef heap s.settingsRef) key).map (fun st => st.value)

/-- C9: getSettings is a pure observer returning a fresh copy: the session is
unchanged, the returned array is a new reference distinct from the stored
settings array but with equal contents, and mutating the returned array changes
neither the stored settings array nor the results of later getSetting (and
hence later getSettings copies). -/
theorem getSettings_pure_copy (s : SessionRef) (heap : List (List Setting))
    (h : s.settingsRef < heap.length) :
    (getSettings s heap).1 = s
    ∧ (getSettings s heap).2.2 ≠ s.settingsRef
    ∧ readRef (getSettings s heap).2.1 (getSettings s heap).2.2 = readRef heap s.settingsRef
    ∧ (∀ v, readRef (writeRef (getSettings s heap).2.1 (getSettings s heap).2.2 v)
          s.settingsRef = readRef heap s.settingsRef)
    ∧ (∀ v key, getSetting s (writeRef (getSettings s heap).2.1 (getSettings s heap).2.2 v) key
          = getSetting s heap key) := by
  have hne : heap.length ≠ s.settingsRef := by omega
  have hread : ∀ v, readRef (writeRef (heap ++ [readRef heap s.settingsRef]) heap.length v)
      s.settingsRef = readRef heap s.settingsRef := by
    intro v
    unfold readRef writeRef
    rw [List.getElem?_set_ne hne, List.getElem?_append_left h]
  refine ⟨rfl, ?_, ?_, hread, ?_⟩
  · exact hne
  · unfold getSettings readRef
    rw [List.getElem?_concat_length]
    rfl
  · intro v key
    simp only [getSetting, getSettings]
    rw [hread v]

/-- C9 witness: on a store with one settings array [vol = 5], the copy returned
by getSettings is fresh, and overwriting it leaves getSetting("vol") reading 5. -/
theorem getSettings_pure_copy_witness :
    (getSettings ⟨0⟩ [[{ key := "vol", value := SettingValue.num 5 }]]).2.2 ≠ 0
    ∧ (∀ v, getSetting ⟨0⟩
        (writeRef (getSettings ⟨0⟩ [[{ key := "vol", value := SettingValue.num 5 }]]).2.1
          (getSettings ⟨0⟩ [[{ key := "vol", value := SettingValue.num 5 }]]).2.2 v) "vol"
        = some (SettingValue.num 5)) := by
  have h := getSettings_pure_copy ⟨0⟩ [[{ key := "vol", value := SettingValue.num 5 }]]
    (by decide)
  refine ⟨h.2.1, ?_⟩
  intro v
  rw [h.2.2.2.2 v "vol"]
  rfl

end Tpa
